import Mathlib

/-!
Verification of the compound-interest core (`core/investment_calculator.py`,
`core/withdrawal_simulation.py`) against its specification.

Modelling conventions:
* Money and rates are embedded as `ℚ`.  The source derives the monthly rate
  from the annual rate via `pow(1 + y, 1/12) - 1` (geometric) or `y / 12`
  (arithmetic); the geometric value is irrational, so every development below
  is parametrised by the monthly rate `r : ℚ` (for validated parameter sets
  the derived rate satisfies `0 ≤ r`, since `y ≥ 0` under both methods).
* Python `round` / `numpy.round` round half to even; both are embedded by
  `pyRound`.
* Python `int()` on a positive float truncates, i.e. takes the floor.
* Fallible Python code (raised exceptions) is embedded with `Except String`.
* Unbounded `while` loops are embedded with an explicit fuel parameter; the
  loop result is `none` exactly when the fuel runs out before the guard
  fails, so "`some` for some fuel" is loop termination.
-/

namespace CompoundCore

/-- The Python builtin `round` and `numpy.round` at integer precision:
round half to even. -/
def pyRound (x : ℚ) : ℤ :=
  let f : ℤ := ⌊x⌋
  let frac : ℚ := x - f
  if frac < 1/2 then f
  else if 1/2 < frac then f + 1
  else if f % 2 = 0 then f else f + 1

/-- The seven arguments of `InvestmentCalculator.__init__`
(`investment_calculator.py` lines 51-57).  `increment : Option ℚ` models the
dynamic `isinstance(increment, (int, float))` check: `none` stands for a
non-numeric Python value. -/
structure RawParams where
  y_return : ℚ
  horizon : ℤ
  m_investment : ℚ
  init_balance : ℚ
  method : String
  increment : Option ℚ
  incre_period : ℤ
  deriving Repr, DecidableEq

/-- `_validate_inputs` (`investment_calculator.py` lines 19-34): the checks in
source order, each raising `ValueError` with the message of the source. -/
def validate_inputs (p : RawParams) : Except String Unit :=
  if p.y_return < 0 then .error "Yearly return rate cannot be less than 0"
  else if p.horizon ≤ 0 then .error "Investment horizon must be positive"
  else if p.m_investment < 0 then .error "Monthly investment cannot be negative"
  else if p.init_balance < 0 then .error "Initial balance cannot be negative"
  else if ¬ (p.method = "geometric" ∨ p.method = "arithmetic") then
    .error "Method must be either geometric or arithmetic"
  else if p.increment = none then .error "Increment amount must be a number"
  else if p.incre_period < 0 then .error "Increment period cannot be negative"
  else .ok ()

/-- The state stored by a constructed `InvestmentCalculator`
(lines 62-69 of the source).  The source also caches
`__monthly_return = _calculate_monthly_return()`, a real-valued pure function
of `y_return` and `method` that always succeeds for validated inputs; its
(possibly irrational) value is carried as an explicit parameter `r` by the
simulation functions below. -/
structure InvestmentCalculator where
  y_return : ℚ
  horizon : ℤ
  m_investment : ℚ
  init_balance : ℚ
  method : String
  increment : ℚ
  increment_period : ℤ
  deriving Repr, DecidableEq

/-- `InvestmentCalculator.__init__` (lines 51-72): validate, then set every
field.  After validation `p.increment` is numeric, so `getD 0` is never the
default branch. -/
def mkCalculator (p : RawParams) : Except String InvestmentCalculator :=
  match validate_inputs p with
  | .error e => .error e
  | .ok () => .ok
      { y_return := p.y_return
        horizon := p.horizon
        m_investment := p.m_investment
        init_balance := p.init_balance
        method := p.method
        increment := p.increment.getD 0
        increment_period := p.incre_period }

/-! ## Forward simulation: `automatic_investment` (lines 101-179)

The loop state per month: account balance, cumulative principal and the
running monthly contribution (`current_monthly_investment`). -/

structure AIState where
  bal : ℚ
  prin : ℚ
  contrib : ℚ
  deriving Repr, DecidableEq

/-- One iteration of the loop at lines 145-157: month index `i`, increment is
applied when `i` is a multiple of 12, the increment is non-zero, the elapsed
years `i / 12` are at most `increPeriod` and non-zero; then
the balance becomes `balance * (1 + r) + contribution` and the
principal becomes `principal + contribution`. -/
def aiStep (r increment : ℚ) (increPeriod : ℤ) (i : ℕ) (s : AIState) : AIState :=
  let c : ℚ :=
    if i % 12 = 0 ∧ increment ≠ 0 ∧ ((i / 12 : ℕ) : ℤ) ≤ increPeriod ∧ i / 12 ≠ 0
    then s.contrib + increment else s.contrib
  { bal := s.bal * (1 + r) + c, prin := s.prin + c, contrib := c }

/-- The loop state after `n` iterations, from the initial arrays of
lines 139-143: `balances[0] = principals[0] = init_balance` and the running
contribution starts at the monthly investment `m`. -/
def aiStates (r increment : ℚ) (increPeriod : ℤ) (init m : ℚ) : ℕ → AIState
  | 0 => { bal := init, prin := init, contrib := m }
  | i + 1 => aiStep r increment increPeriod i (aiStates r increment increPeriod init m i)

/-- The `returns` array (lines 136, 156): `returns[0] = 0` and
`returns[i+1] = balances[i+1] - principals[i+1]`. -/
def aiReturn (r increment : ℚ) (increPeriod : ℤ) (init m : ℚ) : ℕ → ℚ
  | 0 => 0
  | i + 1 => (aiStates r increment increPeriod init m (i + 1)).bal -
      (aiStates r increment increPeriod init m (i + 1)).prin

/-- `InvestmentResult` (lines 10-16), with the `DataFrame` columns of
lines 166-172 as integer lists (the `Date` column, a calendar tag, carries no
numeric content and is omitted). -/
structure InvestmentResult where
  final_balance : ℤ
  total_principal : ℤ
  total_return : ℤ
  principal_col : List ℤ
  return_col : List ℤ
  balance_col : List ℤ
  investment_col : List ℤ
  deriving Repr, DecidableEq

/-- `automatic_investment` (lines 101-179) for a monthly rate `r`, horizon in
years, monthly investment `m`, initial balance `init`, and the increment
configuration of the calculator.  The optional source per-call overrides are the
explicit arguments here; column values are rounded with `numpy.round` and the
scalars with Python `round`, all half-to-even (`pyRound`). -/
def automatic_investment (r : ℚ) (horizon : ℕ) (m init increment : ℚ)
    (increPeriod : ℤ) : InvestmentResult :=
  let M := horizon * 12
  let states := (List.range (M + 1)).map (aiStates r increment increPeriod init m)
  { final_balance := pyRound (aiStates r increment increPeriod init m M).bal
    total_principal := pyRound (aiStates r increment increPeriod init m M).prin
    total_return := pyRound (aiReturn r increment increPeriod init m M)
    principal_col := states.map fun s => pyRound s.prin
    return_col := (List.range (M + 1)).map fun i =>
      pyRound (aiReturn r increment increPeriod init m i)
    balance_col := states.map fun s => pyRound s.bal
    investment_col := (List.range (M + 1)).map fun i =>
      match i with
      | 0 => pyRound init
      | j + 1 => pyRound (aiStates r increment increPeriod init m (j + 1)).contrib }

/-! ## Inverse solvers: `back_to_present` (lines 181-270)

Each `target` branch is embedded separately; all share the initial guard
`value_target <= 0 → ValueError` (lines 203-204) and `month_num = horizon*12`,
and use the cached monthly return of the calculator, carried here as `r`. -/

/-- `back_to_present(target="amount", ...)` (lines 209-222): closed-form
annuity inversion, ceiling-rounded (`math.ceil`). -/
def back_to_present_amount (r : ℚ) (M : ℕ) (init V : ℚ) : Except String ℤ :=
  if V ≤ 0 then .error "Target value must be positive"
  else if V ≤ init then .ok 0
  else if r = 0 then .ok ⌈(V - init) / (M : ℚ)⌉
  else .ok ⌈(V - init * (1 + r) ^ M) / (((1 + r) ^ M - 1) / r)⌉

/-- `back_to_present(target="rate", ...)` (lines 224-253).  The guard
`V ≤ init + m*M` returns 0 (lines 227-228).  Otherwise the bisection loop runs
(the initial bracket width `10.0 - (-0.99) = 10.99` exceeds the tolerance
`1e-6`, so the body executes): its first comparison, line 243
`final_value - target_value < tolerance`, reads the name `target_value`, which
is not defined in the function — the parameter is `value_target` — so Python
raises `NameError` (when the module is imported; executed as a script, the
unrelated global of the `__main__` block, `target_value = 1000` would be read
instead). -/
def back_to_present_rate (m init : ℚ) (M : ℕ) (V : ℚ) : Except String ℚ :=
  if V ≤ 0 then .error "Target value must be positive"
  else if V ≤ init + m * M then .ok 0
  else .error "NameError: name target_value is not defined"

/-- `back_to_present(target="horizon", ...)` (lines 255-270), specialised to
a zero cached monthly return, the case the spec singles out (the non-zero
branch evaluates `math.log`, a real-valued function outside this rational
embedding).  The zero-rate branch computes `months = (V - init)/m`
(line 262): Python raises `ZeroDivisionError` when `m = 0`; then
`years = ceil(max(0, months/12))` (line 269). -/
def back_to_present_horizon_r0 (m init V : ℚ) : Except String ℤ :=
  if V ≤ 0 then .error "Target value must be positive"
  else if V ≤ init then .ok 0
  else if m = 0 then .error "ZeroDivisionError: float division by zero"
  else .ok ⌈max 0 ((V - init) / m / 12)⌉

/-! ## Decumulation: `withdrawal_simulation.py` -/

/-- `WithdrawalResult` (lines 7-14): a dataclass whose five fields all lack
defaults, so every construction must supply all of them.  Numeric variants of
the union-typed fields are specialised per operation below; this record is the
shape used by `simulate_years`. -/
structure WithdrawalYearsResult where
  years : ℕ × ℕ
  monthly_withdrawal : ℚ
  initial_balance : ℚ
  monthly_balances : List ℚ
  no_invest : ℤ × ℤ
  deriving Repr, DecidableEq

/-- The `while` loop of `simulate_years` (lines 53-56) with fuel: while
`balance - w > 0`, step `balance = balance*(1+r) - w` and append the new
balance; `none` when the fuel is exhausted before the guard fails.  The month
count of the source is the length of the returned trace. -/
def simYearsLoop (r w : ℚ) : ℕ → ℚ → Option (List ℚ)
  | 0, b => if b - w > 0 then none else some []
  | fuel + 1, b =>
    if b - w > 0 then
      (simYearsLoop r w fuel (b * (1 + r) - w)).map fun t => (b * (1 + r) - w) :: t
    else some []

/-- `simulate_years` (lines 34-67) with fuel for its `while` loop: validation
error when `init ≤ 0 ∨ w ≤ 0`; `ok none` models a run whose loop has not
finished within `fuel` iterations.  `no_invest = init/w` is decomposed into
whole years and months with float floor-division and modulo followed by
`int()` truncation (both operands positive here, so truncation is floor). -/
def simulate_years (r init w : ℚ) (fuel : ℕ) :
    Except String (Option WithdrawalYearsResult) :=
  if init ≤ 0 ∨ w ≤ 0 then
    .error "Initial balance and monthly withdrawal must be greater than 0."
  else
    match simYearsLoop r w fuel init with
    | none => .ok none
    | some trace =>
      let months := trace.length
      let noInvest := init / w
      .ok (some
        { years := (months / 12, months % 12)
          monthly_withdrawal := w
          initial_balance := init
          monthly_balances := trace
          no_invest := (⌊noInvest / 12⌋, ⌊noInvest - 12 * (⌊noInvest / 12⌋ : ℚ)⌋) })

/-- One withdrawal step (used at lines 54, 106 and 152):
`balance = balance * (1 + r) - withdrawal`. -/
def drawStep (r w b : ℚ) : ℚ := b * (1 + r) - w

/-- The balance after `n` withdrawal steps from `b`. -/
def balAfter (r w b : ℚ) : ℕ → ℚ
  | 0 => b
  | n + 1 => drawStep r w (balAfter r w b n)

/-- The trace built by the `for` loop of `simulate_initial_balance`
(lines 151-153): the post-step balances `b₁ :: b₂ :: ...`, `n` of them. -/
def drawTrace (r w b : ℚ) : ℕ → List ℚ
  | 0 => []
  | n + 1 => drawStep r w b :: drawTrace r w (drawStep r w b) n

/-- The bounded `for` loop of `simulate_monthly_withdrawal` (lines 103-107):
at most `n` steps, breaking before a step when `balance - w < 0`. -/
def drawTraceBreak (r w b : ℚ) : ℕ → List ℚ
  | 0 => []
  | n + 1 =>
    if b - w < 0 then []
    else drawStep r w b :: drawTraceBreak r w (drawStep r w b) n

/-- `WithdrawalResult` as produced by the two horizon-given operations
(`years` is the echoed rational input there). -/
structure WithdrawalHorizonResult where
  years : ℚ
  monthly_withdrawal : ℚ
  initial_balance : ℚ
  monthly_balances : List ℚ
  no_invest : ℚ
  deriving Repr, DecidableEq

/-- `simulate_monthly_withdrawal` (lines 69-115): validation, then
`months = int(years * 12)` (truncation; positive here, so the floor).  In the
zero-rate branch, lines 96-97 construct `WithdrawalResult` without the
required `no_invest` field, so Python raises `TypeError` (the dataclass has no
default for it).  In the non-zero branch the closed-form level-annuity payment
is forward-simulated with an early break, and `no_invest = init/months`. -/
def simulate_monthly_withdrawal (r init years : ℚ) :
    Except String WithdrawalHorizonResult :=
  if init ≤ 0 ∨ years ≤ 0 then
    .error "Initial balance and years must be greater than 0."
  else
    let M : ℕ := (⌊years * 12⌋).toNat
    if r = 0 then
      .error "TypeError: WithdrawalResult missing required argument no_invest"
    else
      let mw := init * r / (1 - (1 + r) ^ (-(M : ℤ)))
      .ok { years := years
            monthly_withdrawal := mw
            initial_balance := init
            monthly_balances := drawTraceBreak r mw init M
            no_invest := init / (M : ℚ) }

/-- `simulate_initial_balance` (lines 117-161): validation, then
`months = int(years * 12)`.  Zero-rate branch: lines 143-144 construct
`WithdrawalResult` without the required `no_invest` field — `TypeError`, as in
`simulate_monthly_withdrawal`.  Non-zero branch: closed-form
`initial = w*(1 - (1+r)^(-months))/r`, then `months` forward steps recorded in
the trace, and `no_invest = months * w`. -/
def simulate_initial_balance (r w years : ℚ) :
    Except String WithdrawalHorizonResult :=
  if w ≤ 0 ∨ years ≤ 0 then
    .error "Monthly withdrawal and years must be greater than 0."
  else
    let M : ℕ := (⌊years * 12⌋).toNat
    if r = 0 then
      .error "TypeError: WithdrawalResult missing required argument no_invest"
    else
      let b0 := w * (1 - (1 + r) ^ (-(M : ℤ))) / r
      .ok { years := years
            monthly_withdrawal := w
            initial_balance := b0
            monthly_balances := drawTrace r w b0 M
            no_invest := (M : ℚ) * w }

/-! ## Helper lemmas -/

/-- With a zero increment the running contribution never changes. -/
lemma aiStates_contrib_of_increment_zero (r : ℚ) (P : ℤ) (init m : ℚ) (n : ℕ) :
    (aiStates r 0 P init m n).contrib = m := by
  induction n with
  | zero => rfl
  | succ i ih => simp [aiStates, aiStep, ih]

/-- Nonnegative starting contribution and nonnegative increment keep the
running contribution nonnegative. -/
lemma aiStates_contrib_nonneg (r inc : ℚ) (P : ℤ) (init m : ℚ) (n : ℕ)
    (hm : 0 ≤ m) (hinc : 0 ≤ inc) : 0 ≤ (aiStates r inc P init m n).contrib := by
  induction n with
  | zero => exact hm
  | succ i ih =>
    simp only [aiStates, aiStep]
    split <;> [linarith; exact ih]

/-- One simulated month adds the new running contribution to the principal. -/
lemma aiStates_prin_succ (r inc : ℚ) (P : ℤ) (init m : ℚ) (i : ℕ) :
    (aiStates r inc P init m (i + 1)).prin =
      (aiStates r inc P init m i).prin + (aiStates r inc P init m (i + 1)).contrib := by
  simp [aiStates, aiStep]

/-- One simulated month: the new balance is the old balance grown by one month
of return plus the new running contribution. -/
lemma aiStates_bal_succ (r inc : ℚ) (P : ℤ) (init m : ℚ) (i : ℕ) :
    (aiStates r inc P init m (i + 1)).bal =
      (aiStates r inc P init m i).bal * (1 + r) + (aiStates r inc P init m (i + 1)).contrib := by
  simp [aiStates, aiStep]

/-- Closed form of the zero-increment simulation at zero monthly rate. -/
lemma aiStates_bal_zero_rate (P : ℤ) (init m : ℚ) (n : ℕ) :
    (aiStates 0 0 P init m n).bal = init + m * n := by
  induction n with
  | zero => simp [aiStates]
  | succ i ih =>
    rw [aiStates_bal_succ, ih, aiStates_contrib_of_increment_zero]
    push_cast
    ring

/-- Closed form of the zero-increment simulation at a non-zero monthly rate:
`init*(1+r)^n + m*((1+r)^n - 1)/r`. -/
lemma aiStates_bal_closed (r : ℚ) (P : ℤ) (init m : ℚ) (n : ℕ) (hr : r ≠ 0) :
    (aiStates r 0 P init m n).bal =
      init * (1 + r) ^ n + m * ((1 + r) ^ n - 1) / r := by
  induction n with
  | zero => simp [aiStates]
  | succ i ih =>
    rw [aiStates_bal_succ, ih, aiStates_contrib_of_increment_zero]
    field_simp
    ring

/-! ## C8: construction succeeds exactly on valid parameters -/

/-- C8: `InvestmentCalculator` construction raises exactly when annual
return < 0, horizon ≤ 0, monthly contribution < 0, initial balance < 0, the
method is unrecognised, the increment is not numeric, or the increment period
is negative; on all other inputs it returns a calculator with every field set
from the inputs. -/
theorem construction_ok_iff (p : RawParams) :
    mkCalculator p = .ok
      { y_return := p.y_return
        horizon := p.horizon
        m_investment := p.m_investment
        init_balance := p.init_balance
        method := p.method
        increment := p.increment.getD 0
        increment_period := p.incre_period } ↔
    (0 ≤ p.y_return ∧ 0 < p.horizon ∧ 0 ≤ p.m_investment ∧ 0 ≤ p.init_balance ∧
      (p.method = "geometric" ∨ p.method = "arithmetic") ∧ p.increment ≠ none ∧
      0 ≤ p.incre_period) := by
  unfold mkCalculator validate_inputs
  split_ifs with h1 h2 h3 h4 h5 h6 h7 <;>
    simp_all [not_lt, not_le]

/-! ## C4: the month recurrence and the increment schedule -/

/-- The per-month running contribution as the specification characterises it:
the contribution for month `i`, starting at the monthly investment and
increased by the increment exactly at the months that are multiples of 12
with a non-zero increment, elapsed years at most the increment period and
non-zero (so never at month 0). -/
def contribSeq (m increment : ℚ) (P : ℤ) : ℕ → ℚ
  | 0 => m
  | i + 1 =>
    if (i + 1) % 12 = 0 ∧ increment ≠ 0 ∧ (((i + 1) / 12 : ℕ) : ℤ) ≤ P ∧ (i + 1) / 12 ≠ 0
    then contribSeq m increment P i + increment
    else contribSeq m increment P i

/-- The loop state of the source carries exactly the contribution sequence of
the specification: the contribution applied during month step `i` (stored in
state `i + 1`) is `contribSeq i`. -/
lemma aiStates_contrib_eq_contribSeq (r m inc : ℚ) (P : ℤ) (init : ℚ) (i : ℕ) :
    (aiStates r inc P init m (i + 1)).contrib = contribSeq m inc P i := by
  induction i with
  | zero => simp [aiStates, aiStep, contribSeq]
  | succ j ih =>
    show (aiStep r inc P (j + 1) (aiStates r inc P init m (j + 1))).contrib = _
    simp only [aiStep, contribSeq, ih]

/-- C4: `automatic_investment` computes each month by
`balance[i+1] = balance[i]*(1+r) + contribution`, where the contribution is
the running amount increased by the increment exactly at months `i` that are
multiples of 12 with non-zero increment, elapsed years `i / 12 ≤ incre_period`
and `i / 12 ≠ 0` — the characterisation `contribSeq`, whose first increment
falls at month 12 and never at month 0. -/
theorem balance_recurrence_contrib (r m inc : ℚ) (P : ℤ) (init : ℚ) (i : ℕ) :
    (aiStates r inc P init m (i + 1)).bal =
      (aiStates r inc P init m i).bal * (1 + r) + contribSeq m inc P i := by
  rw [aiStates_bal_succ, aiStates_contrib_eq_contribSeq]

/-! ## C3: schedule invariants -/

/-- Entry `i` of the rounded balance column is the rounded exact balance of
month `i`. -/
lemma balance_col_getElem (r m init inc : ℚ) (P : ℤ) (h i : ℕ)
    (hi : i < h * 12 + 1) :
    (automatic_investment r h m init inc P).balance_col[i]? =
      some (pyRound (aiStates r inc P init m i).bal) := by
  simp [automatic_investment, List.getElem?_range hi]

/-- Entry `i` of the rounded principal column is the rounded exact principal
of month `i`. -/
lemma principal_col_getElem (r m init inc : ℚ) (P : ℤ) (h i : ℕ)
    (hi : i < h * 12 + 1) :
    (automatic_investment r h m init inc P).principal_col[i]? =
      some (pyRound (aiStates r inc P init m i).prin) := by
  simp [automatic_investment, List.getElem?_range hi]

/-- Entry `i` of the rounded return column is the rounded exact return of
month `i`. -/
lemma return_col_getElem (r m init inc : ℚ) (P : ℤ) (h i : ℕ)
    (hi : i < h * 12 + 1) :
    (automatic_investment r h m init inc P).return_col[i]? =
      some (pyRound (aiReturn r inc P init m i)) := by
  simp [automatic_investment, List.getElem?_range hi]

/-- C3 counterexample: the invariant `balance = principal + return` fails on
the integer-rounded schedule columns.  With monthly rate 1 (annual return 12
under the arithmetic method), one year, no contributions and initial balance
2/5, month 1 has exact balance 4/5 and exact principal and return 2/5 each;
rounded half-to-even these become 1, 0 and 0, and `1 ≠ 0 + 0`.  Moreover with
a valid negative increment (initial contribution 0, increment −1) the exact
principal decreases from month 12 to month 13. -/
theorem schedule_invariants_cex :
    ((automatic_investment 1 1 0 (2/5) 0 0).balance_col[1]? = some 1 ∧
      (automatic_investment 1 1 0 (2/5) 0 0).principal_col[1]? = some 0 ∧
      (automatic_investment 1 1 0 (2/5) 0 0).return_col[1]? = some 0 ∧
      (1 : ℤ) ≠ 0 + 0) ∧
    (aiStates 0 (-1) 5 0 0 13).prin < (aiStates 0 (-1) 5 0 0 12).prin := by
  refine ⟨⟨?_, ?_, ?_, by decide⟩, by norm_num [aiStates, aiStep]⟩
  · rw [balance_col_getElem 1 0 (2/5) 0 0 1 1 (by norm_num)]
    norm_num [aiStates, aiStep, pyRound, Int.fract]
  · rw [principal_col_getElem 1 0 (2/5) 0 0 1 1 (by norm_num)]
    norm_num [aiStates, aiStep, pyRound, Int.fract]
  · rw [return_col_getElem 1 0 (2/5) 0 0 1 1 (by norm_num)]
    norm_num [aiStates, aiStep, aiReturn, pyRound, Int.fract]

/-- C3 (amended): on the exact (unrounded) values of the schedule produced by
`automatic_investment`, every valid parameter set — valid negative increments
included — satisfies `balance = principal + return` at every index,
`balance[0] = principal[0] = initial balance` and `return[0] = 0`; and the
principal is non-decreasing provided the monthly contribution and the
configured increment are nonnegative (the integer-rounded display columns can
break additivity by one unit, and a valid negative increment can make the
principal decrease). -/
theorem schedule_invariants_exact (r m init inc : ℚ) (P : ℤ) (i : ℕ) :
    (aiStates r inc P init m i).bal =
        (aiStates r inc P init m i).prin + aiReturn r inc P init m i ∧
      (aiStates r inc P init m 0).bal = init ∧
      (aiStates r inc P init m 0).prin = init ∧
      aiReturn r inc P init m 0 = 0 ∧
      (0 ≤ m → 0 ≤ inc →
        (aiStates r inc P init m i).prin ≤ (aiStates r inc P init m (i + 1)).prin) := by
  refine ⟨?_, rfl, rfl, rfl, ?_⟩
  · cases i with
    | zero => simp [aiStates, aiReturn]
    | succ j => simp [aiReturn]
  · intro hm hinc
    rw [aiStates_prin_succ]
    have := aiStates_contrib_nonneg r inc P init m (i + 1) hm hinc
    linarith

/-- C3 witness: the amended invariants evaluated at monthly rate 1/2,
contribution 3, initial balance 7, increment 2, period 4, month 5, with the
monotonicity hypotheses discharged there. -/
theorem schedule_invariants_exact_witness :
    (aiStates (1/2) 2 4 7 3 5).bal =
        (aiStates (1/2) 2 4 7 3 5).prin + aiReturn (1/2) 2 4 7 3 5 ∧
      (aiStates (1/2) 2 4 7 3 5).prin ≤ (aiStates (1/2) 2 4 7 3 6).prin :=
  ⟨(schedule_invariants_exact (1/2) 3 7 2 4 5).1,
    (schedule_invariants_exact (1/2) 3 7 2 4 5).2.2.2.2 (by norm_num) (by norm_num)⟩

/-! ## C2: the required-contribution round trip -/

/-- C2 counterexample.  First conjunct: the reported `final_balance` is
rounded to the nearest integer, so a fractional target can be undershot: with
zero rate, one year, initial balance 3/10 and target 123/10, the solver
returns contribution 1, the re-run has exact final balance 123/10, and the
reported `final_balance` is 12 < 123/10.  Second conjunct: the closed form
ignores the configured increment, so a valid negative increment (contribution
1, increment −1, period 5, two years) makes even the exact re-run final
balance 12 fall short of the target 24. -/
theorem amount_roundtrip_cex :
    (back_to_present_amount 0 12 (3/10) (123/10) = .ok 1 ∧
      (automatic_investment 0 1 1 (3/10) 0 0).final_balance = 12 ∧
      ¬ ((123/10 : ℚ) ≤ ((12 : ℤ) : ℚ))) ∧
    (back_to_present_amount 0 24 0 24 = .ok 1 ∧
      (aiStates 0 (-1) 5 0 1 24).bal = 12 ∧ ¬ ((24 : ℚ) ≤ 12)) := by
  refine ⟨⟨?_, ?_, by norm_num⟩, ?_, ?_, by norm_num⟩
  · norm_num [back_to_present_amount]
  · simp only [automatic_investment]
    norm_num [aiStates, aiStep, pyRound, Int.fract]
  · norm_num [back_to_present_amount]
  · norm_num [aiStates, aiStep]

/-- A nonnegative increment keeps the running contribution at or above its
starting value. -/
lemma aiStates_contrib_ge (r inc : ℚ) (P : ℤ) (init m : ℚ) (hinc : 0 ≤ inc)
    (n : ℕ) : m ≤ (aiStates r inc P init m n).contrib := by
  induction n with
  | zero => exact le_rfl
  | succ i ih =>
    simp only [aiStates, aiStep]
    split <;> linarith

/-- For a nonnegative monthly rate, the balance under a nonnegative increment
dominates the balance of the same run with the increment disabled. -/
lemma aiStates_bal_zero_le (r inc : ℚ) (P : ℤ) (init m : ℚ) (hr : 0 ≤ r)
    (hinc : 0 ≤ inc) (n : ℕ) :
    (aiStates r 0 P init m n).bal ≤ (aiStates r inc P init m n).bal := by
  induction n with
  | zero => exact le_rfl
  | succ i ih =>
    rw [aiStates_bal_succ, aiStates_bal_succ, aiStates_contrib_of_increment_zero]
    have h1 := aiStates_contrib_ge r inc P init m hinc (i + 1)
    have h2 : (aiStates r 0 P init m i).bal * (1 + r) ≤
        (aiStates r inc P init m i).bal * (1 + r) :=
      mul_le_mul_of_nonneg_right ih (by linarith)
    linarith

/-- The ceiling-rounded solved contribution, re-run with the increment
disabled, reaches the target exactly. -/
lemma amount_reaches_target_no_inc (r init V : ℚ) (M : ℕ) (P : ℤ)
    (hr : 0 ≤ r) (hM : 1 ≤ M) (hV0 : 0 < V) (hV : init < V) :
    ∃ a : ℤ, back_to_present_amount r M init V = .ok a ∧
      V ≤ (aiStates r 0 P init (a : ℚ) M).bal := by
  unfold back_to_present_amount
  rw [if_neg (not_le.mpr hV0), if_neg (not_le.mpr hV)]
  have hMpos : (0 : ℚ) < (M : ℚ) := by exact_mod_cast Nat.lt_of_lt_of_le Nat.zero_lt_one hM
  rcases eq_or_lt_of_le hr with h0 | hpos
  · refine ⟨⌈(V - init) / (M : ℚ)⌉, by rw [if_pos h0.symm], ?_⟩
    rw [← h0, aiStates_bal_zero_rate]
    have hle := Int.le_ceil ((V - init) / (M : ℚ))
    have h2 : (V - init) / (M : ℚ) * (M : ℚ) ≤ (⌈(V - init) / (M : ℚ)⌉ : ℚ) * (M : ℚ) :=
      mul_le_mul_of_nonneg_right hle hMpos.le
    rw [div_mul_cancel₀ _ hMpos.ne'] at h2
    linarith
  · have hrne : r ≠ 0 := ne_of_gt hpos
    rw [if_neg hrne]
    have hq : (1 : ℚ) < 1 + r := by linarith
    have hpow : (1 : ℚ) < (1 + r) ^ M := one_lt_pow₀ hq (by omega)
    have hden : (0 : ℚ) < ((1 + r) ^ M - 1) / r := div_pos (by linarith) hpos
    refine ⟨_, rfl, ?_⟩
    rw [aiStates_bal_closed _ _ _ _ _ hrne]
    have hle := Int.le_ceil ((V - init * (1 + r) ^ M) / (((1 + r) ^ M - 1) / r))
    rw [div_le_iff₀ hden] at hle
    have h3 : (⌈(V - init * (1 + r) ^ M) / (((1 + r) ^ M - 1) / r)⌉ : ℚ) *
        (((1 + r) ^ M - 1) / r) =
        (⌈(V - init * (1 + r) ^ M) / (((1 + r) ^ M - 1) / r)⌉ : ℚ) *
        ((1 + r) ^ M - 1) / r := by ring
    linarith [h3 ▸ hle]

/-- C2 (amended): for every nonnegative monthly rate, month count ≥ 1, target
`V` above the initial balance and nonnegative configured increment, the amount
solver succeeds and re-running the forward simulation with the ceiling-rounded
contribution substituted (increments applied as configured) reaches an exact
final balance of at least `V`; the claim fails only on the integer-rounded
`final_balance` field for fractional targets, and for configurations with a
negative increment. -/
theorem amount_roundtrip_exact (r init V inc : ℚ) (M : ℕ) (P : ℤ)
    (hr : 0 ≤ r) (hinc : 0 ≤ inc) (hM : 1 ≤ M) (hV0 : 0 < V) (hV : init < V) :
    ∃ a : ℤ, back_to_present_amount r M init V = .ok a ∧
      V ≤ (aiStates r inc P init (a : ℚ) M).bal := by
  obtain ⟨a, ha, hbal⟩ := amount_reaches_target_no_inc r init V M P hr hM hV0 hV
  exact ⟨a, ha, le_trans hbal (aiStates_bal_zero_le r inc P init (a : ℚ) hr hinc M)⟩

/-- C2 witness: the amended round trip at zero rate, 12 months, zero initial
balance, target 100, increment 2 over period 3. -/
theorem amount_roundtrip_exact_witness :
    ∃ a : ℤ, back_to_present_amount 0 12 0 100 = .ok a ∧
      (100 : ℚ) ≤ (aiStates 0 2 3 0 (a : ℚ) 12).bal :=
  amount_roundtrip_exact 0 0 100 2 12 3 (by norm_num) (by norm_num) (by norm_num)
    (by norm_num) (by norm_num)

/-! ## C7: the zero-rate horizon solver and division by zero -/

/-- C7 counterexample: with zero monthly rate, zero monthly contribution
(permitted by validation) and target 1 above the initial balance 0, the
horizon branch divides `(V - init)` by the contribution 0 and raises
`ZeroDivisionError`. -/
theorem horizon_zero_rate_div_cex :
    back_to_present_horizon_r0 0 0 1 =
      .error "ZeroDivisionError: float division by zero" := by
  norm_num [back_to_present_horizon_r0]

/-- C7 (amended): for a positive target, the zero-rate horizon branch returns
without raising exactly when the target is already met or the monthly
contribution is non-zero; and when the target is unmet and the contribution is
non-zero it returns `ceil(max(0, ((V - init)/m)/12))`.  With contribution 0
and an unmet target it divides by zero. -/
theorem horizon_zero_rate_ok_iff (m init V : ℚ) (hV : 0 < V) :
    ((∃ y, back_to_present_horizon_r0 m init V = .ok y) ↔ (V ≤ init ∨ m ≠ 0)) ∧
    (init < V → m ≠ 0 →
      back_to_present_horizon_r0 m init V = .ok ⌈max 0 ((V - init) / m / 12)⌉) := by
  unfold back_to_present_horizon_r0
  rw [if_neg (not_le.mpr hV)]
  constructor
  · constructor
    · rintro ⟨y, hy⟩
      by_cases h1 : V ≤ init
      · exact .inl h1
      · rw [if_neg h1] at hy
        by_cases h2 : m = 0
        · rw [if_pos h2] at hy
          exact absurd hy (by simp)
        · exact .inr h2
    · rintro (h1 | h2)
      · exact ⟨0, by rw [if_pos h1]⟩
      · by_cases h1 : V ≤ init
        · exact ⟨0, by rw [if_pos h1]⟩
        · exact ⟨_, by rw [if_neg h1, if_neg h2]⟩
  · intro h1 h2
    rw [if_neg (not_le.mpr h1), if_neg h2]

/-- C7 witness: the amended characterisation at contribution 1, initial
balance 0 and target 1. -/
theorem horizon_zero_rate_ok_iff_witness :
    ((∃ y, back_to_present_horizon_r0 1 0 1 = .ok y) ↔
      ((1 : ℚ) ≤ 0 ∨ (1 : ℚ) ≠ 0)) ∧
    ((0 : ℚ) < 1 → (1 : ℚ) ≠ 0 →
      back_to_present_horizon_r0 1 0 1 = .ok ⌈max 0 (((1 : ℚ) - 0) / 1 / 12)⌉) :=
  horizon_zero_rate_ok_iff 1 0 1 (by norm_num)

/-! ## C1: the rate solver -/

/-- C1: evaluating the embedded rate solver at a valid parameter set (monthly
contribution 1, 12 months, initial balance 0) and target 1000 — which exceeds
`initial + contribution × months = 12`, so the bisection loop is entered —
produces the `NameError` raised by the first loop comparison (line 243 reads
the undefined name `target_value`), not an annual rate. -/
theorem rate_solver_nameerror :
    back_to_present_rate 1 0 12 1000 =
      .error "NameError: name target_value is not defined" := by
  norm_num [back_to_present_rate]

/-! ## C5: termination of `simulate_years` -/

/-- With monthly rate 1/100 and withdrawal 1, a balance of at least 200 earns
at least 2 of interest per month, so the loop guard never fails: the balance
is non-decreasing and the loop never exits. -/
lemma simYearsLoop_diverges_aux (fuel : ℕ) :
    ∀ b : ℚ, 200 ≤ b → simYearsLoop (1/100) 1 fuel b = none := by
  induction fuel with
  | zero =>
    intro b hb
    simp only [simYearsLoop]
    rw [if_pos (by linarith)]
  | succ n ih =>
    intro b hb
    simp only [simYearsLoop]
    rw [if_pos (by linarith), ih (b * (1 + 1/100) - 1) (by linarith)]
    rfl

/-- C5 counterexample: `simulate_years` does not terminate for every valid
input.  With monthly rate 1/100, initial balance 200 and withdrawal 1 (both
strictly positive, as validation requires), the monthly interest always
exceeds the withdrawal, so no amount of fuel makes the loop finish: the claim
that every such call terminates is false. -/
theorem simulate_years_divergence_cex :
    ¬ ∃ (fuel : ℕ) (res : WithdrawalYearsResult),
      simulate_years (1/100) 200 1 fuel = .ok (some res) := by
  rintro ⟨fuel, res, h⟩
  rw [simulate_years, if_neg (by norm_num), simYearsLoop_diverges_aux fuel 200 le_rfl]
    at h
  exact absurd h (by simp)

/-- When the monthly interest on the starting balance stays below the
withdrawal, each loop iteration shrinks the balance by at least the fixed gap
`w - b0*r`, so enough fuel makes the loop finish. -/
lemma simYearsLoop_terminates_aux (r w b0 : ℚ) (hr : 0 ≤ r) (h : b0 * r < w) :
    ∀ (n : ℕ) (b : ℚ), b ≤ b0 → b ≤ w + n * (w - b0 * r) →
      (simYearsLoop r w n b).isSome := by
  intro n
  induction n with
  | zero =>
    intro b hb hbound
    norm_num at hbound
    simp only [simYearsLoop]
    rw [if_neg (by push_neg; linarith)]
    rfl
  | succ k ih =>
    intro b hb hbound
    simp only [simYearsLoop]
    by_cases hg : b - w > 0
    · rw [if_pos hg]
      have hstep : b * (1 + r) - w ≤ b - (w - b0 * r) := by
        have : b * r ≤ b0 * r := mul_le_mul_of_nonneg_right hb hr
        nlinarith
      have h1 : b * (1 + r) - w ≤ b0 := by nlinarith
      have h2 : b * (1 + r) - w ≤ w + k * (w - b0 * r) := by
        push_cast at hbound
        nlinarith
      have := ih (b * (1 + r) - w) h1 h2
      rcases Option.isSome_iff_exists.mp this with ⟨t, ht⟩
      rw [ht]
      rfl
    · rw [if_neg hg]
      rfl

/-- C5 (amended): `simulate_years` terminates whenever the monthly interest on
the initial balance is below the monthly withdrawal (`init*r < w`, which holds
in particular for the example of the specification); the loop then finishes
with some fuel, i.e. in finitely many months.  Without that condition a valid
input can make the balance non-decreasing and the loop run forever. -/
theorem simulate_years_terminates (r init w : ℚ) (hr : 0 ≤ r) (hb : 0 < init)
    (hw : 0 < w) (h : init * r < w) :
    ∃ (fuel : ℕ) (res : WithdrawalYearsResult),
      simulate_years r init w fuel = .ok (some res) := by
  have hgap : 0 < w - init * r := by linarith
  obtain ⟨n, hn⟩ := exists_nat_ge ((init - w) / (w - init * r))
  have hbound : init ≤ w + n * (w - init * r) := by
    rw [div_le_iff₀ hgap] at hn
    linarith
  have hsome := simYearsLoop_terminates_aux r w init hr h n init le_rfl hbound
  rcases Option.isSome_iff_exists.mp hsome with ⟨t, ht⟩
  refine ⟨n,
    { years := (t.length / 12, t.length % 12)
      monthly_withdrawal := w
      initial_balance := init
      monthly_balances := t
      no_invest := (⌊init / w / 12⌋, ⌊init / w - 12 * (⌊init / w / 12⌋ : ℚ)⌋) }, ?_⟩
  rw [simulate_years, if_neg (by push_neg; constructor <;> linarith), ht]

/-- C5 witness: termination at zero rate, initial balance 3, withdrawal 1. -/
theorem simulate_years_terminates_witness :
    ∃ (fuel : ℕ) (res : WithdrawalYearsResult),
      simulate_years 0 3 1 fuel = .ok (some res) :=
  simulate_years_terminates 0 3 1 (by norm_num) (by norm_num) (by norm_num)
    (by norm_num)

/-! ## C9: positivity of the `simulate_years` balance trace -/

/-- C9: for a nonnegative monthly rate and positive withdrawal and initial
balance, every entry recorded in the balance trace of a terminating
`simulate_years` loop is strictly positive: the guard ensures the pre-step
balance exceeds the withdrawal, and a nonnegative rate keeps the post-step
balance above zero. -/
theorem years_trace_positive (r w : ℚ) (fuel : ℕ) (hr : 0 ≤ r) (_hw : 0 < w) :
    ∀ (b : ℚ) (t : List ℚ), 0 < b → simYearsLoop r w fuel b = some t →
      ∀ x ∈ t, 0 < x := by
  induction fuel with
  | zero =>
    intro b t hb ht x hx
    simp only [simYearsLoop] at ht
    by_cases hg : b - w > 0
    · rw [if_pos hg] at ht; exact absurd ht (by simp)
    · rw [if_neg hg] at ht
      cases ht
      exact absurd hx (List.not_mem_nil x)
  | succ n ih =>
    intro b t hb ht x hx
    simp only [simYearsLoop] at ht
    by_cases hg : b - w > 0
    · rw [if_pos hg] at ht
      rcases Option.map_eq_some'.mp ht with ⟨t', ht', rfl⟩
      have hb2 : 0 < b * (1 + r) - w := by nlinarith
      rcases List.mem_cons.mp hx with rfl | hx'
      · exact hb2
      · exact ih (b * (1 + r) - w) t' hb2 ht' x hx'
    · rw [if_neg hg] at ht
      cases ht
      exact absurd hx (List.not_mem_nil x)

/-- C9 witness: the loop at rate 0, withdrawal 1, balance 3 terminates with
trace `[2, 1]`, and the theorem gives positivity of both entries. -/
theorem years_trace_positive_witness : (0 : ℚ) < 2 ∧ (0 : ℚ) < 1 :=
  ⟨years_trace_positive 0 1 5 (by norm_num) (by norm_num) 3 [2, 1] (by norm_num)
      (by norm_num [simYearsLoop]) 2 (by norm_num),
    years_trace_positive 0 1 5 (by norm_num) (by norm_num) 3 [2, 1] (by norm_num)
      (by norm_num [simYearsLoop]) 1 (by norm_num)⟩

/-! ## C10: the closed-form initial balance depletes exactly -/

/-- Closed form of the withdrawal recurrence at a non-zero rate. -/
lemma balAfter_closed (r w b : ℚ) (hr : r ≠ 0) (n : ℕ) :
    balAfter r w b n = b * (1 + r) ^ n - w * ((1 + r) ^ n - 1) / r := by
  induction n with
  | zero => simp [balAfter]
  | succ k ih =>
    rw [balAfter, drawStep, ih]
    field_simp
    ring

/-- Stepping the start forward commutes with extending the iteration count. -/
lemma balAfter_drawStep (r w b : ℚ) (n : ℕ) :
    balAfter r w (drawStep r w b) n = balAfter r w b (n + 1) := by
  induction n with
  | zero => rfl
  | succ k ih => rw [balAfter, ih]; rfl

/-- The last entry of a non-empty withdrawal trace is the balance after all
steps. -/
lemma drawTrace_getLast (r w : ℚ) (n : ℕ) :
    ∀ b : ℚ, (drawTrace r w b (n + 1)).getLast? = some (balAfter r w b (n + 1)) := by
  induction n with
  | zero => intro b; simp [drawTrace, balAfter, drawStep]
  | succ k ih =>
    intro b
    have h1 : drawTrace r w b (k + 2) =
        drawStep r w b :: drawTrace r w (drawStep r w b) (k + 1) := rfl
    have h2 : drawTrace r w (drawStep r w b) (k + 1) =
        drawStep r w (drawStep r w b) :: drawTrace r w (drawStep r w (drawStep r w b)) k := rfl
    rw [h1, h2, List.getLast?_cons_cons, ← h2, ih, balAfter_drawStep]

/-- C10 (amended): in exact arithmetic, for every monthly rate `r ≠ 0` with
`1 + r > 0`, positive withdrawal and a duration of at least one month
(`⌊years*12⌋ ≥ 1`; the source truncates `years*12` to whole months),
`simulate_initial_balance` returns the closed-form initial balance and a trace
whose last entry is exactly 0: the closed form depletes precisely over the
requested horizon.  For `0 < years < 1/12` the month count truncates to 0 and
the trace is empty, so it has no last entry. -/
theorem initial_balance_trace_depletes (r w years : ℚ) (hr : r ≠ 0)
    (hq : 0 < 1 + r) (hw : 0 < w) (hy : 1 ≤ ⌊years * 12⌋) :
    ∃ res, simulate_initial_balance r w years = .ok res ∧
      res.initial_balance = w * (1 - (1 + r) ^ (-((⌊years * 12⌋).toNat : ℤ))) / r ∧
      res.monthly_balances.getLast? = some 0 := by
  have hy0 : 0 < years := by
    by_contra hcon
    push_neg at hcon
    have : ⌊years * 12⌋ ≤ 0 := Int.floor_nonpos (by linarith)
    omega
  rw [simulate_initial_balance, if_neg (by push_neg; constructor <;> linarith)]
  rw [if_neg hr]
  refine ⟨_, rfl, rfl, ?_⟩
  obtain ⟨k, hk⟩ : ∃ k : ℕ, (⌊years * 12⌋).toNat = k + 1 := by
    refine ⟨(⌊years * 12⌋).toNat - 1, ?_⟩
    omega
  simp only [hk]
  rw [drawTrace_getLast, balAfter_closed _ _ _ hr]
  have hqne : (1 + r) ≠ 0 := ne_of_gt hq
  rw [zpow_neg, zpow_natCast]
  field_simp
  ring

/-- C10 witness: monthly rate 1, withdrawal 1, one year: the closed-form
initial balance depletes to exactly 0 after 12 months. -/
theorem initial_balance_trace_depletes_witness :
    ∃ res, simulate_initial_balance 1 1 1 = .ok res ∧
      res.initial_balance = 1 * (1 - (1 + 1) ^ (-((⌊(1 : ℚ) * 12⌋).toNat : ℤ))) / 1 ∧
      res.monthly_balances.getLast? = some 0 :=
  initial_balance_trace_depletes 1 1 1 (by norm_num) (by norm_num) (by norm_num)
    (by norm_num)

/-- C10 counterexample: at `years = 1/24` (valid: positive), the source
truncates `years*12` to 0 months, the produced trace is empty and has no last
entry, so the claim as stated — the last entry of the trace is 0 for every
`years > 0` — fails. -/
theorem initial_balance_trace_cex :
    ¬ ∃ res, simulate_initial_balance 1 1 (1/24) = .ok res ∧
      res.monthly_balances.getLast? = some 0 := by
  rintro ⟨res, h1, h2⟩
  have hfloor : (⌊(1/24 : ℚ) * 12⌋).toNat = 0 := by norm_num
  rw [simulate_initial_balance, if_neg (by norm_num)] at h1
  simp only [hfloor] at h1
  rw [if_neg (by norm_num)] at h1
  cases h1
  simp [drawTrace] at h2

/-! ## C6: zero-rate sustainable-withdrawal computation -/

/-- C6: with a zero monthly rate (annual return 0) and the valid inputs
initial balance 1000 and one year, `simulate_monthly_withdrawal` does not
return the zero-rate level-annuity result carrying the no-growth baseline: its
zero-rate branch constructs the `WithdrawalResult` dataclass without the
required `no_invest` field, so the call raises `TypeError`. -/
theorem monthly_withdrawal_zero_rate_raises :
    simulate_monthly_withdrawal 0 1000 1 =
      .error "TypeError: WithdrawalResult missing required argument no_invest" := by
  rw [simulate_monthly_withdrawal, if_neg (by norm_num), if_pos rfl]

end CompoundCore
